import Mathlib

/-!
Shallow embedding of the structural calculation engine of the
APP-CALCULO-VIGA repository, together with theorems settling the frozen
claims about its specification.

Embedded sources:
- src/utils/pdfGenerator.ts (the second concatenated module of that file):
  getRhoMin, calculateBeam with its inner helper calculateReinforcement, and
  calculateColumn with its inner helpers calcSecondOrder and getOmega.
- src/unnamed/part_003 (the beam solver module): solveBeam with its node
  discretization, stiffness and load assembly, penalty boundary conditions,
  Gaussian elimination, member force recovery, nodal reactions and the
  diagram walk.

Modelling conventions:
- JavaScript double arithmetic is idealised as exact real arithmetic; in
  particular division by zero yields 0 in Lean where JavaScript would produce
  Infinity or NaN, and theorems carry positivity hypotheses where that
  distinction could matter.
- Human readable strings are presentation: diagnostic messages are modelled by
  the inductive type Msg which keeps the identity of the pushed message
  template (and the concerned beam face), dropping the interpolated numbers
  that the source formats into the Portuguese text.  The calculation memory
  transcript (an ordered list of formatted log lines whose numeric content is
  exactly the quantities computed here) and the toFixed decimal formatting of
  chart samples and metric values are string renderings of values already
  present in the embedded records and are not modelled separately.
- The id fields of Support, PointLoad and DistributedLoad are opaque UI
  identifiers never read by the engine and are omitted.
- The source field named end of DistributedLoad is renamed endPos (end is a
  reserved word in Lean); start is renamed startPos for symmetry.
-/

noncomputable section

namespace CalcViga

/-- From src types: type SupportType = roller | pin | fixed. -/
inductive SupportType
  | roller
  | pin
  | fixed
deriving DecidableEq

/-- From src types: enum SteelType (CA-25, CA-50, CA-60). -/
inductive SteelType
  | CA25
  | CA50
  | CA60
deriving DecidableEq

/-- From src types: enum SupportCondition (the four classical column end
restraint cases). -/
inductive SupportCondition
  | PINNED_PINNED
  | FIXED_FREE
  | FIXED_PINNED
  | FIXED_FIXED
deriving DecidableEq

/-- From src types: interface Support (id omitted, see module comment). -/
structure Support where
  position : ℝ
  type : SupportType

/-- From src types: interface PointLoad (id omitted). -/
structure PointLoad where
  position : ℝ
  magnitude : ℝ

/-- From src types: interface DistributedLoad (id and the deprecated unused
magnitude field omitted; start and end renamed, see module comment). -/
structure DistributedLoad where
  startPos : ℝ
  endPos : ℝ
  startMagnitude : ℝ
  endMagnitude : ℝ

/-- From src types: interface BeamInput. -/
structure BeamInput where
  span : ℝ
  supports : List Support
  pointLoads : List PointLoad
  distributedLoads : List DistributedLoad
  width : ℝ
  height : ℝ
  fck : ℝ
  steelType : SteelType
  fyk : ℝ
  concreteCover : ℝ
  longitudinalBarDiameter : ℝ
  topBarDiameter : ℝ
  stirrupDiameter : ℝ
  stirrupSpacing : ℝ
  stirrupHookAngle : ℝ
  layers : ℕ

/-- From src types: interface ColumnInput. -/
structure ColumnInput where
  height : ℝ
  axialLoad : ℝ
  widthX : ℝ
  widthY : ℝ
  fck : ℝ
  steelType : SteelType
  fyk : ℝ
  supportCondition : SupportCondition
  longitudinalBarDiameter : ℝ
  stirrupDiameter : ℝ
  stirrupSpacing : ℝ

/-- The two beam faces designed by calculateReinforcement. -/
inductive Face
  | bottom
  | top
deriving DecidableEq

/-- Identity of each diagnostic message string pushed by the engine (the
interpolated numeric values of the source strings are dropped, the template
and the concerned face are kept). -/
inductive Msg
  | instability
  | elsWarning
  | sectionInsufficient (face : Face)
  | layersOverflow (face : Face)
  | stirrupRatioLow
  | slendernessExcessive
  | crushing
  | overReinforced
  | stirrupDiaSmall
  | stirrupSpacingLarge
deriving DecidableEq

/-- From src types: interface CrossSectionDetails.  Layer counts are integers
(bar counts). -/
structure CrossSectionDetails where
  width : ℝ
  height : ℝ
  cover : ℝ
  stirrupDiameter : ℝ
  stirrupSpacing : ℝ
  stirrupHookAngle : ℝ
  bottomBarDiameter : ℝ
  topBarDiameter : ℝ
  bottomLayers : List ℤ
  topLayers : List ℤ
  leftLayers : Option (List ℤ)
  rightLayers : Option (List ℤ)
  stirrupLegs : ℤ

/-- From src types: interface ReinforcementOption. -/
structure ReinforcementOption where
  diameter : ℝ
  count : ℤ
  area : ℝ
  layers : ℕ
  valid : Bool

/-- From src types: interface CalculationResult.  The metrics list keeps the
numeric value of each metric entry in source order (labels, units and
descriptions are fixed strings, see module comment); chart samples are
(position, value) pairs. -/
structure CalculationResult where
  isValid : Bool
  messages : List Msg
  metrics : List ℝ
  chartDataMoment : Option (List (ℝ × ℝ))
  chartDataNormal : Option (List (ℝ × ℝ))
  chartDataBuckling : Option (List (ℝ × ℝ))
  chartDataShear : Option (List (ℝ × ℝ))
  chartDataDeflection : Option (List (ℝ × ℝ))
  crossSection : Option CrossSectionDetails
  alternativeReinforcement : List ReinforcementOption

/-- Safety factors NBR 6118 (pdfGenerator.ts). -/
def GAMMA_C : ℝ := 1.4

/-- Steel safety factor (pdfGenerator.ts). -/
def GAMMA_S : ℝ := 1.15

/-- Load safety factor (pdfGenerator.ts). -/
def GAMMA_F : ℝ := 1.4

/-- Commercial bar diameters in mm (src types BAR_DIAMETERS). -/
def BAR_DIAMETERS : List ℝ := [6.3, 8.0, 10.0, 12.5, 16.0, 20.0, 25.0]

/-- getRhoMin (pdfGenerator.ts): minimum flexural reinforcement ratio in
percent, tabulated by concrete grade. -/
def getRhoMin (fck : ℝ) : ℝ :=
  if fck ≤ 20 then 0.150
  else if fck ≤ 25 then 0.150
  else if fck ≤ 30 then 0.150
  else if fck ≤ 35 then 0.164
  else if fck ≤ 40 then 0.179
  else if fck ≤ 45 then 0.194
  else if fck ≤ 50 then 0.208
  else 0.208

/-! ## Column design engine (calculateColumn, pdfGenerator.ts lines 672-979) -/

/-- Effective length factor k of the chosen end restraint case
(calculateColumn switch on supportCondition). -/
def colK : SupportCondition → ℝ
  | SupportCondition.PINNED_PINNED => 1.0
  | SupportCondition.FIXED_FREE => 2.0
  | SupportCondition.FIXED_PINNED => 0.7
  | SupportCondition.FIXED_FIXED => 0.5

/-- Effective buckling length le = k * height (calculateColumn). -/
def colLe (inp : ColumnInput) : ℝ := colK inp.supportCondition * inp.height

/-- Design axial load Nd = axialLoad * GAMMA_F (calculateColumn). -/
def colNd (inp : ColumnInput) : ℝ := inp.axialLoad * GAMMA_F

/-- Section side hx in meters (calculateColumn). -/
def colHx (inp : ColumnInput) : ℝ := inp.widthX / 100

/-- Section side hy in meters (calculateColumn). -/
def colHy (inp : ColumnInput) : ℝ := inp.widthY / 100

/-- Gross concrete area Ac = hx * hy in square meters (calculateColumn). -/
def colAc (inp : ColumnInput) : ℝ := colHx inp * colHy inp

/-- Design concrete strength fcd = fck * 1000 / GAMMA_C in kPa
(calculateColumn). -/
def colFcd (inp : ColumnInput) : ℝ := inp.fck * 1000 / GAMMA_C

/-- Design steel strength fyd = fyk * 1000 / GAMMA_S in kPa
(calculateColumn). -/
def colFyd (inp : ColumnInput) : ℝ := inp.fyk * 1000 / GAMMA_S

/-- Slenderness about x: lambdaX = (le * 3.46) / hx (calculateColumn line
703; the source multiplies by the literal constant 3.46, a three digit
truncation of the square root of 12). -/
def columnLambdaX (inp : ColumnInput) : ℝ := colLe inp * 3.46 / colHx inp

/-- Slenderness about y: lambdaY = (le * 3.46) / hy (calculateColumn line
704). -/
def columnLambdaY (inp : ColumnInput) : ℝ := colLe inp * 3.46 / colHy inp

/-- Minimum eccentricity about x: e_min_x = 0.015 + 0.03 * hx in meters
(calculateColumn). -/
def colEminX (inp : ColumnInput) : ℝ := 0.015 + 0.03 * colHx inp

/-- Minimum eccentricity about y (calculateColumn). -/
def colEminY (inp : ColumnInput) : ℝ := 0.015 + 0.03 * colHy inp

/-- Minimum first order moment about x: M1d_min_x = Nd * e_min_x
(calculateColumn). -/
def colM1dminX (inp : ColumnInput) : ℝ := colNd inp * colEminX inp

/-- Minimum first order moment about y (calculateColumn). -/
def colM1dminY (inp : ColumnInput) : ℝ := colNd inp * colEminY inp

/-- calcSecondOrder (pdfGenerator.ts lines 744-754): returns the total
moment and the second order eccentricity for one axis.  Nd, Ac, fcd and le
are the closed over values of the enclosing calculateColumn call. -/
def calcSecondOrder (Nd Ac fcd le : ℝ) (lambda h_side M1d : ℝ) : ℝ × ℝ :=
  if lambda ≤ 35 then (M1d, 0)
  else
    let nu := Nd / (Ac * fcd)
    let curvature0 := 0.005 / (h_side * (nu + 0.5))
    let curvature := if curvature0 < 0.005 / h_side then 0.005 / h_side else curvature0
    let e2 := le * le / 10 * curvature
    (M1d + Nd * e2, e2)

/-- Total design moment about x (calculateColumn lines 739, 756-761): the
minimum first order moment, magnified by calcSecondOrder only when lambdaX
exceeds 35. -/
def columnMtotX (inp : ColumnInput) : ℝ :=
  if columnLambdaX inp > 35 then
    (calcSecondOrder (colNd inp) (colAc inp) (colFcd inp) (colLe inp)
      (columnLambdaX inp) (colHx inp) (colM1dminX inp)).1
  else colM1dminX inp

/-- Total design moment about y (calculateColumn lines 740, 762-767). -/
def columnMtotY (inp : ColumnInput) : ℝ :=
  if columnLambdaY inp > 35 then
    (calcSecondOrder (colNd inp) (colAc inp) (colFcd inp) (colLe inp)
      (columnLambdaY inp) (colHy inp) (colM1dminY inp)).1
  else colM1dminY inp

/-- Nondimensional axial ratio nu = Nd / (Ac * fcd) (calculateColumn). -/
def colNu (inp : ColumnInput) : ℝ := colNd inp / (colAc inp * colFcd inp)

/-- getOmega (pdfGenerator.ts lines 777-785): empirical linear fit of the
mechanical reinforcement ratio; 999 signals crushing when nu exceeds 1. -/
def getOmega (nu mu : ℝ) : ℝ :=
  if nu > 1.0 then 999
  else
    let w := nu - 0.6 + 3.0 * mu
    if w < 0 then 0 else w

/-- Reduced moment mu_x = Mtot_x / (hy * hx * hx * fcd) (calculateColumn). -/
def colMuX (inp : ColumnInput) : ℝ :=
  columnMtotX inp / (colHy inp * colHx inp * colHx inp * colFcd inp)

/-- Reduced moment mu_y = Mtot_y / (hx * hy * hy * fcd) (calculateColumn). -/
def colMuY (inp : ColumnInput) : ℝ :=
  columnMtotY inp / (colHx inp * colHy inp * colHy inp * colFcd inp)

/-- Required mechanical ratio omega_req = max of the two axes
(calculateColumn). -/
def colOmegaReq (inp : ColumnInput) : ℝ :=
  max (getOmega (colNu inp) (colMuX inp)) (getOmega (colNu inp) (colMuY inp))

/-- Required steel area As_calc = omega_req * Ac * fcd / fyd * 10000 in cm2
(calculateColumn). -/
def colAsCalc (inp : ColumnInput) : ℝ :=
  colOmegaReq inp * colAc inp * colFcd inp / colFyd inp * 10000

/-- Minimum steel area As_min = max(0.15 * Nd / fyd, 0.004 * Ac) in cm2
(calculateColumn lines 796-800). -/
def colAsMin (inp : ColumnInput) : ℝ :=
  let fyd_kN_cm2 := inp.fyk / 1.15 / 10
  max (0.15 * colNd inp / fyd_kN_cm2) (0.004 * colAc inp * 10000)

/-- Adopted steel area As_final = max(As_calc, As_min) (calculateColumn). -/
def colAsFinal (inp : ColumnInput) : ℝ := max (colAsCalc inp) (colAsMin inp)

/-- Maximum steel area As_max = 0.04 * Ac in cm2 (calculateColumn). -/
def colAsMax (inp : ColumnInput) : ℝ := 0.04 * colAc inp * 10000

/-- Area of one longitudinal bar in cm2 (calculateColumn line 829). -/
def colBarArea (inp : ColumnInput) : ℝ :=
  Real.pi * (inp.longitudinalBarDiameter / 20) ^ 2

/-- Bar distribution of calculateColumn lines 830-861: returns
(sideBarsVert, sideBarsHoriz, numBars) after the symmetry adjustments. -/
def colBars (inp : ColumnInput) : ℤ × ℤ × ℤ :=
  let numBars0 : ℤ := max ⌈colAsFinal inp / colBarArea inp⌉ 4
  let remBars := numBars0 - 4
  if remBars > 0 then
    let perimeterFrac := inp.widthY / (inp.widthX + inp.widthY)
    let nVert0 : ℤ := round ((remBars : ℝ) * perimeterFrac)
    let nVert1 := if nVert0 % 2 ≠ 0 then nVert0 - 1 else nVert0
    let nVert := if nVert1 < 0 then 0 else nVert1
    let nHoriz0 := remBars - nVert
    if nHoriz0 % 2 ≠ 0 then (nVert / 2, (nHoriz0 + 1) / 2, numBars0 + 1)
    else (nVert / 2, nHoriz0 / 2, numBars0)
  else (0, 0, numBars0)

/-- Minimum stirrup diameter rule max(5, barDiameter / 4) in mm
(calculateColumn line 877). -/
def colMinStirrupDiaRule (inp : ColumnInput) : ℝ :=
  max 5.0 (inp.longitudinalBarDiameter / 4)

/-- Maximum stirrup spacing rule min(20, min side, 12 * barDiameter in cm)
(calculateColumn lines 884-885). -/
def colMaxSpacingRule (inp : ColumnInput) : ℝ :=
  min 20 (min (min inp.widthX inp.widthY) (12 * (inp.longitudinalBarDiameter / 10)))

/-- Early return record of calculateColumn when max(lambdaX, lambdaY)
exceeds 140 (lines 712-720): invalid, one message, empty metrics, no charts,
no cross section. -/
def colSlenderResult : CalculationResult where
  isValid := false
  messages := [Msg.slendernessExcessive]
  metrics := []
  chartDataMoment := none
  chartDataNormal := none
  chartDataBuckling := none
  chartDataShear := none
  chartDataDeflection := none
  crossSection := none
  alternativeReinforcement := []

/-- Buckling mode shape factor at normalized height xi (calculateColumn
lines 927-943). -/
def colShapeFactor (cond : SupportCondition) (xi : ℝ) : ℝ :=
  match cond with
  | SupportCondition.PINNED_PINNED => Real.sin (Real.pi * xi)
  | SupportCondition.FIXED_FREE => 1 - Real.cos (Real.pi * xi / 2)
  | SupportCondition.FIXED_FIXED => 0.5 * (1 - Real.cos (2 * Real.pi * xi))
  | SupportCondition.FIXED_PINNED => xi * xi * (1 - xi) * 2.5

/-- The main branch of calculateColumn past the slenderness gate
(pdfGenerator.ts lines 722-978). -/
def colMainResult (inp : ColumnInput) : CalculationResult :=
  let Nd := colNd inp
  let M_tot_x := columnMtotX inp
  let M_tot_y := columnMtotY inp
  let nu := colNu inp
  let As_final := colAsFinal inp
  let As_max := colAsMax inp
  -- isValid starts true and is cleared by the crushing and maximum
  -- reinforcement checks (lines 814-825); the stirrup checks below push
  -- warnings only.
  let isValid1 := true
  let isValid2 := if nu > 1.0 then false else isValid1
  let isValid3 := if As_final > As_max then false else isValid2
  let crushMsgs := if nu > 1.0 then [Msg.crushing] else []
  let overMsgs := if As_final > As_max then [Msg.overReinforced] else []
  let barArea := colBarArea inp
  let bars := colBars inp
  let sideBarsVert := bars.1
  let sideBarsHoriz := bars.2.1
  let numBars := bars.2.2
  let As_provided := (numBars : ℝ) * barArea
  let diaMsgs := if inp.stirrupDiameter < colMinStirrupDiaRule inp
    then [Msg.stirrupDiaSmall] else []
  let spacingMsgs := if inp.stirrupSpacing > colMaxSpacingRule inp
    then [Msg.stirrupSpacingLarge] else []
  let topRowBars := 2 + sideBarsHoriz
  let bottomRowBars := 2 + sideBarsHoriz
  let leftColBars := sideBarsVert
  let rightColBars := sideBarsVert
  let chartDataNormal := [((0 : ℝ), Nd), (inp.height, Nd)]
  let M_design := max M_tot_x M_tot_y
  let chartDataMoment :=
    [((0 : ℝ), M_design), (inp.height / 2, M_design * 0.6), (inp.height, M_design)]
  let e_tot := M_design / Nd
  let chartDataBuckling := (List.range 21).map fun i =>
    let x := (i : ℝ) / 20 * inp.height
    let xi := x / inp.height
    (x, e_tot * colShapeFactor inp.supportCondition xi * 100)
  { isValid := isValid3
    messages := crushMsgs ++ overMsgs ++ diaMsgs ++ spacingMsgs
    metrics := [Nd, M_tot_x, M_tot_y, As_provided,
      As_provided / (colAc inp * 10000) * 100]
    chartDataMoment := some chartDataMoment
    chartDataNormal := some chartDataNormal
    chartDataBuckling := some chartDataBuckling
    chartDataShear := none
    chartDataDeflection := none
    crossSection := some
      { width := inp.widthX
        height := inp.widthY
        cover := 3.0
        stirrupDiameter := inp.stirrupDiameter
        stirrupSpacing := inp.stirrupSpacing
        stirrupHookAngle := 90
        bottomBarDiameter := inp.longitudinalBarDiameter
        topBarDiameter := inp.longitudinalBarDiameter
        bottomLayers := [bottomRowBars]
        topLayers := [topRowBars]
        leftLayers := some [leftColBars]
        rightLayers := some [rightColBars]
        stirrupLegs := 2 }
    alternativeReinforcement := [] }

/-- calculateColumn (pdfGenerator.ts lines 672-979): slenderness gate first,
then the main design branch. -/
def calculateColumn (inp : ColumnInput) : CalculationResult :=
  if max (columnLambdaX inp) (columnLambdaY inp) > 140 then colSlenderResult
  else colMainResult inp

/-! ## Beam solver (src/unnamed/part_003, solveBeam lines 46-596) -/

/-- Node set of the discretization: positions 0, span and every support
position, deduplicated and sorted ascending (solveBeam lines 61-71).  The JS
Set keeps first occurrences while List.dedup keeps last occurrences, which is
irrelevant after sorting. -/
def solveNodes (inp : BeamInput) : List ℝ :=
  (((0 : ℝ) :: inp.span :: inp.supports.map (·.position)).dedup).mergeSort (· ≤ ·)

/-- Elastic modulus E = 0.85 * (5600 * sqrt fck) * 1000 in kN per square
meter (solveBeam lines 51-52). -/
def beamE (inp : BeamInput) : ℝ := 0.85 * (5600 * Real.sqrt inp.fck) * 1000

/-- Bending stiffness EI with I = b * h cubed / 12 for the section in meters
(solveBeam lines 54-57). -/
def beamEI (inp : BeamInput) : ℝ :=
  beamE inp * (inp.width / 100 * (inp.height / 100) ^ 3 / 12)

/-- Fixed end actions (R1, M1, R2, M2) of a downward point load P at distance
a from the left end of an element of length L, with b = L - a (the formula
block appearing at part_003 lines 151-157, 191-194 and 286-289). -/
def pointFEA (L a b P : ℝ) : ℝ × ℝ × ℝ × ℝ :=
  (P * b * b * (3 * a + b) / (L * L * L),
   P * a * b * b / (L * L),
   P * a * a * (a + 3 * b) / (L * L * L),
   -(P * a * a * b) / (L * L))

/-- Fixed end actions contributed to the element [x1, x2] by one distributed
load: the load is clipped to the element overlap and the trapezoid is
discretized into 5 equivalent point loads at subsegment centroids (part_003
lines 115-175 during assembly, and the textually identical recomputation at
lines 271-292). -/
def distLoadFEA (x1 x2 : ℝ) (dl : DistributedLoad) : ℝ × ℝ × ℝ × ℝ :=
  let L := x2 - x1
  let s := max x1 dl.startPos
  let e := min x2 dl.endPos
  if e > s then
    let totalLen := dl.endPos - dl.startPos
    let slope := (dl.endMagnitude - dl.startMagnitude) /
      (if totalLen = 0 then 1 else totalLen)
    let q1 := dl.startMagnitude + slope * (s - dl.startPos)
    let q2 := dl.startMagnitude + slope * (e - dl.startPos)
    let dx := (e - s) / 5
    ((List.range 5).map fun k =>
      let px := s + dx * (k : ℝ) + dx / 2
      let qx := q1 + (q2 - q1) * ((k : ℝ) + 0.5) / 5
      pointFEA L (px - x1) (x2 - px) (qx * dx)).sum
  else 0

/-- Sum of the distributed load fixed end actions over an element. -/
def elemDistFEA (x1 x2 : ℝ) (dls : List DistributedLoad) : ℝ × ℝ × ℝ × ℝ :=
  (dls.map (distLoadFEA x1 x2)).sum

/-- Index of the element that receives a point load during load assembly
(part_003 lines 178-206): the loop scans elements left to right, skips
elements shorter than 1e-5, applies the load to the first element whose
closed interval contains the load position, and breaks.  A load landing
exactly on a shared node therefore goes to the leftmost containing element;
it is not skipped, because the guard tests the element length and not the
load position. -/
def asmPointTarget (nodes : List ℝ) (p : PointLoad) : Option ℕ :=
  (List.range (nodes.length - 1)).find? fun i =>
    decide (nodes.getD i 0 ≤ p.position ∧ p.position ≤ nodes.getD (i+1) 0 ∧
      ¬(nodes.getD (i+1) 0 - nodes.getD i 0 < 1e-5))

/-- Point load fixed end actions applied to element i during assembly. -/
def elemAsmPointFEA (nodes : List ℝ) (i : ℕ) (pls : List PointLoad) :
    ℝ × ℝ × ℝ × ℝ :=
  let x1 := nodes.getD i 0
  let x2 := nodes.getD (i+1) 0
  (pls.map fun p =>
    if asmPointTarget nodes p = some i then
      pointFEA (x2 - x1) (p.position - x1) (x2 - p.position) p.magnitude
    else 0).sum

/-- The fixed end action 4 vector (R1, M1, R2, M2) subtracted from the global
load vector F for element i during load assembly (part_003 lines
110-206). -/
def elemAsmFEA (nodes : List ℝ) (i : ℕ) (pls : List PointLoad)
    (dls : List DistributedLoad) : ℝ × ℝ × ℝ × ℝ :=
  elemDistFEA (nodes.getD i 0) (nodes.getD (i+1) 0) dls +
    elemAsmPointFEA nodes i pls

/-- Point load fixed end actions recomputed for element i during force
recovery (part_003 lines 293-304): only loads strictly inside the element,
min(a, b) > 1e-5, on an element longer than 1e-5, are included. -/
def elemRecPointFEA (nodes : List ℝ) (i : ℕ) (pls : List PointLoad) :
    ℝ × ℝ × ℝ × ℝ :=
  let x1 := nodes.getD i 0
  let x2 := nodes.getD (i+1) 0
  (pls.map fun p =>
    let a := p.position - x1
    let b := x2 - p.position
    if x1 ≤ p.position ∧ p.position ≤ x2 ∧ |x2 - x1| > 1e-5 ∧ min a b > 1e-5 then
      pointFEA (x2 - x1) a b p.magnitude
    else 0).sum

/-- The fixed end action 4 vector (R1, M1, R2, M2) recomputed for element i
during force and reaction recovery (part_003 lines 263-305). -/
def elemRecFEA (nodes : List ℝ) (i : ℕ) (pls : List PointLoad)
    (dls : List DistributedLoad) : ℝ × ℝ × ℝ × ℝ :=
  elemDistFEA (nodes.getD i 0) (nodes.getD (i+1) 0) dls +
    elemRecPointFEA nodes i pls

/-- Component of a fixed end action 4 vector of element i seen at global
degree of freedom dof (vertical and rotational DOFs of its two nodes). -/
def feaAtDof (f : ℝ × ℝ × ℝ × ℝ) (i dof : ℕ) : ℝ :=
  if dof = 2*i then f.1
  else if dof = 2*i+1 then f.2.1
  else if dof = 2*i+2 then f.2.2.1
  else if dof = 2*i+3 then f.2.2.2
  else 0

/-- Global load vector F after assembly (part_003 lines 110-206): F starts at
zero and each element subtracts its fixed end actions at its node DOFs. -/
def assembleF (nodes : List ℝ) (pls : List PointLoad)
    (dls : List DistributedLoad) (dof : ℕ) : ℝ :=
  -(((List.range (nodes.length - 1)).map fun i =>
      feaAtDof (elemAsmFEA nodes i pls dls) i dof).sum)

/-- Local 4 by 4 Euler Bernoulli stiffness matrix entries of an element of
length L (part_003 lines 86-101). -/
def localK (EI L : ℝ) (r c : ℕ) : ℝ :=
  let k := EI / (L * L * L)
  let k11 := 12 * k
  let k12 := 6 * L * k
  let k22 := 4 * L * L * k
  let k22far := 2 * L * L * k
  match r, c with
  | 0, 0 => k11 | 0, 1 => k12 | 0, 2 => -k11 | 0, 3 => k12
  | 1, 0 => k12 | 1, 1 => k22 | 1, 2 => -k12 | 1, 3 => k22far
  | 2, 0 => -k11 | 2, 1 => -k12 | 2, 2 => k11 | 2, 3 => -k12
  | 3, 0 => k12 | 3, 1 => k22far | 3, 2 => -k12 | 3, 3 => k22
  | _, _ => 0

/-- Global stiffness matrix after element assembly (part_003 lines 79-108,
elements shorter than 1e-5 are skipped) and penalty boundary conditions
(lines 208-225: each support adds 1e20 on the vertical diagonal of the first
node within 0.001 of its position, and on the rotational diagonal as well
when the support is fixed).  Imperative accumulation is expressed as a
sum. -/
def assembleK (inp : BeamInput) (nodes : List ℝ) (r c : ℕ) : ℝ :=
  let elemPart := ((List.range (nodes.length - 1)).map fun i =>
    let L := nodes.getD (i+1) 0 - nodes.getD i 0
    if L < 1e-5 then 0
    else if 2*i ≤ r ∧ r ≤ 2*i+3 ∧ 2*i ≤ c ∧ c ≤ 2*i+3 then
      localK (beamEI inp) L (r - 2*i) (c - 2*i)
    else 0).sum
  let penaltyPart := (inp.supports.map fun s =>
    match nodes.findIdx? (fun nd => decide (|nd - s.position| < 0.001)) with
    | some idx =>
      (if r = 2*idx ∧ c = 2*idx then 1e20 else 0) +
      (if s.type = SupportType.fixed ∧ r = 2*idx+1 ∧ c = 2*idx+1 then 1e20 else 0)
    | none => 0).sum
  elemPart + penaltyPart

/-- Row swap on the function representation of the dense matrix. -/
def swapRows (M : ℕ → ℕ → ℝ) (i j : ℕ) : ℕ → ℕ → ℝ :=
  fun r c => if r = i then M j c else if r = j then M i c else M r c

/-- Entry swap on the right hand side vector. -/
def swapEntries (x : ℕ → ℝ) (i j : ℕ) : ℕ → ℝ :=
  fun r => if r = i then x j else if r = j then x i else x r

/-- One outer step of the forward elimination of solveLinear (part_003 lines
13-31): partial pivot row selection among the remaining rows, row swap,
pivot magnitude threshold 1e-10, then elimination of the rows below. -/
def gaussStep (n : ℕ) (st : (ℕ → ℕ → ℝ) × (ℕ → ℝ)) (i : ℕ) :
    (ℕ → ℕ → ℝ) × (ℕ → ℝ) :=
  let M := st.1
  let x := st.2
  let maxRow := (List.range' (i+1) (n - (i+1))).foldl
    (fun mr k => if |M k i| > |M mr i| then k else mr) i
  let M1 := swapRows M i maxRow
  let x1 := swapEntries x i maxRow
  if |M1 i i| < 1e-10 then (M1, x1)
  else
    (List.range' (i+1) (n - (i+1))).foldl
      (fun st2 k =>
        let factor := st2.1 k i / st2.1 i i
        (fun r c =>
          if r = k ∧ i ≤ c ∧ c < n then st2.1 r c - factor * st2.1 i c
          else st2.1 r c,
         fun r => if r = k then st2.2 r - factor * st2.2 i else st2.2 r))
      (M1, x1)

/-- Back substitution of solveLinear (part_003 lines 33-43): the result
starts at zero and rows whose pivot magnitude is at most 1e-10 are left at
zero. -/
def backSub (n : ℕ) (M : ℕ → ℕ → ℝ) (x : ℕ → ℝ) : ℕ → ℝ :=
  (List.range n).reverse.foldl
    (fun res i =>
      if |M i i| > 1e-10 then
        Function.update res i
          ((x i - ((List.range' (i+1) (n - (i+1))).map fun j => M i j * res j).sum)
            / M i i)
      else res)
    (fun _ => 0)

/-- solveLinear (part_003 lines 8-44): dense Gaussian elimination with
partial pivoting. -/
def solveLinear (n : ℕ) (A : ℕ → ℕ → ℝ) (b : ℕ → ℝ) : ℕ → ℝ :=
  let st := (List.range n).foldl (gaussStep n) (A, b)
  backSub n st.1 st.2

/-- Member end forces of one element: force and moment exerted by the beam on
each end node. -/
structure MemberForce where
  Fy_L : ℝ
  M_L : ℝ
  Fy_R : ℝ
  M_R : ℝ

/-- Member end forces of element i (part_003 lines 247-315): local stiffness
times nodal displacements plus the recomputed fixed end actions. -/
def memberForce (inp : BeamInput) (nodes : List ℝ) (dvec : ℕ → ℝ) (i : ℕ) :
    MemberForce :=
  let x1 := nodes.getD i 0
  let x2 := nodes.getD (i+1) 0
  let L := x2 - x1
  let k := beamEI inp / (L * L * L)
  let u0 := dvec (2*i)
  let u1 := dvec (2*i+1)
  let u2 := dvec (2*i+2)
  let u3 := dvec (2*i+3)
  let fea := elemRecFEA nodes i inp.pointLoads inp.distributedLoads
  { Fy_L := 12*k*u0 + 6*L*k*u1 + (-12*k)*u2 + 6*L*k*u3 + fea.1
    M_L := 6*L*k*u0 + 4*L*L*k*u1 + (-6*L*k)*u2 + 2*L*L*k*u3 + fea.2.1
    Fy_R := (-12*k)*u0 + (-6*L*k)*u1 + 12*k*u2 + (-6*L*k)*u3 + fea.2.2.1
    M_R := 6*L*k*u0 + 2*L*L*k*u1 + (-6*L*k)*u2 + 4*L*L*k*u3 + fea.2.2.2 }

/-- Nodal reaction (Ry, Mz) at node index i (part_003 lines 330-365): the sum
of the adjoining member end forces, with every point load lying within 0.001
of the node subtracted from Ry. -/
def nodeReaction (inp : BeamInput) (nodes : List ℝ) (dvec : ℕ → ℝ) (i : ℕ) :
    ℝ × ℝ :=
  let n := nodes.length
  let x := nodes.getD i 0
  let ry1 := if i < n - 1 then (memberForce inp nodes dvec i).Fy_L else 0
  let mz1 := if i < n - 1 then (memberForce inp nodes dvec i).M_L else 0
  let ry2 := if 0 < i then (memberForce inp nodes dvec (i-1)).Fy_R else 0
  let mz2 := if 0 < i then (memberForce inp nodes dvec (i-1)).M_R else 0
  let pl := (inp.pointLoads.map fun p =>
    if |p.position - x| < 0.001 then p.magnitude else 0).sum
  (ry1 + ry2 - pl, mz1 + mz2)

/-- Lookup of the reaction map by exact node position (the JS Map is keyed by
the node positions, which are pairwise distinct after deduplication). -/
def reactionLookup (inp : BeamInput) (nodes : List ℝ) (dvec : ℕ → ℝ) (x : ℝ) :
    Option (ℝ × ℝ) :=
  (nodes.findIdx? (fun nd => decide (nd = x))).map (nodeReaction inp nodes dvec)

/-- Running state of the diagram walk. -/
structure WalkState where
  V : ℝ
  M : ℝ
  moments : List (ℝ × ℝ)
  shears : List (ℝ × ℝ)
  defls : List (ℝ × ℝ)
  maxMomentPos : ℝ
  maxMomentNeg : ℝ
  maxShear : ℝ
  maxDeflection : ℝ

/-- Deflection at position x interpolated from the nodal displacements with
cubic Hermite shape functions (part_003 lines 548-576), in meters. -/
def deflectionAt (nodes : List ℝ) (dvec : ℕ → ℝ) (x : ℝ) : ℝ :=
  match nodes.findIdx? (fun nd => decide (nd ≥ x - 1e-5)) with
  | none => 0
  | some nodeIdx =>
    if |nodes.getD nodeIdx 0 - x| < 1e-4 then dvec (2*nodeIdx)
    else if 0 < nodeIdx then
      let n1 := nodeIdx - 1
      let x1 := nodes.getD n1 0
      let x2 := nodes.getD nodeIdx 0
      let L := x2 - x1
      let xi := (x - x1) / L
      let v1 := dvec (2*n1)
      let t1 := dvec (2*n1+1)
      let v2 := dvec (2*nodeIdx)
      let t2 := dvec (2*nodeIdx+1)
      (1 - 3*xi^2 + 2*xi^3) * v1 + L * (xi - 2*xi^2 + xi^3) * t1 +
        (3*xi^2 - 2*xi^3) * v2 + L * (-(xi^2) + xi^3) * t2
    else 0

/-- One sample step of the final diagram walk (part_003 lines 473-584): for a
positive index, integrate the distributed loads over the window, update the
moment with the trapezoidal average of the shear, then apply the reactions of
supports and the point loads falling in the window as jumps; every step then
records the three samples and updates the running peaks. -/
def walkStep (inp : BeamInput) (nodes : List ℝ) (dvec : ℕ → ℝ) (dx : ℝ)
    (st : WalkState) (i : ℕ) : WalkState :=
  let x := (i : ℝ) * dx
  let st1 :=
    if i = 0 then st
    else
      let x_prev := ((i : ℝ) - 1) * dx
      let segLen := x - x_prev
      let dV_dist := (inp.distributedLoads.map fun dl =>
        let s := max x_prev dl.startPos
        let e := min x dl.endPos
        if e > s then
          let slope := (dl.endMagnitude - dl.startMagnitude) /
            (dl.endPos - dl.startPos)
          let q_s := dl.startMagnitude + slope * (s - dl.startPos)
          let q_e := dl.startMagnitude + slope * (e - dl.startPos)
          (e - s) * (q_s + q_e) / 2
        else 0).sum
      let V_prev := st.V
      let V1 := V_prev - dV_dist
      let M1 := st.M + (V_prev + V1) / 2 * segLen
      let VM2 := inp.supports.foldl (fun vm s =>
        if s.position > x_prev + 1e-9 ∧ s.position ≤ x + 1e-9 then
          match reactionLookup inp nodes dvec s.position with
          | some r => (vm.1 + r.1, vm.2 - r.2)
          | none => vm
        else vm) (V1, M1)
      let V3 := inp.pointLoads.foldl (fun v p =>
        if p.position > x_prev + 1e-9 ∧ p.position ≤ x + 1e-9 then
          v - p.magnitude
        else v) VM2.1
      { st with V := V3, M := VM2.2 }
  let y_cm := deflectionAt nodes dvec x * 100
  { V := st1.V
    M := st1.M
    moments := st1.moments ++ [(x, st1.M)]
    shears := st1.shears ++ [(x, st1.V)]
    defls := st1.defls ++ [(x, y_cm)]
    maxMomentPos := if st1.M > st1.maxMomentPos then st1.M else st1.maxMomentPos
    maxMomentNeg := if st1.M < st1.maxMomentNeg then st1.M else st1.maxMomentNeg
    maxShear := if |st1.V| > st1.maxShear then |st1.V| else st1.maxShear
    maxDeflection :=
      if |y_cm| > |st1.maxDeflection| then y_cm else st1.maxDeflection }

/-- Output record of solveBeam consumed by the beam design stage. -/
structure SolverResult where
  chartDataMoment : List (ℝ × ℝ)
  chartDataShear : List (ℝ × ℝ)
  chartDataDeflection : List (ℝ × ℝ)
  maxMomentPos : ℝ
  maxMomentNeg : ℝ
  maxShear : ℝ
  maxDeflection : ℝ

/-- solveBeam (src/unnamed/part_003 lines 46-596): discretize, assemble K and
F, apply penalty boundary conditions, solve for displacements, recover
reactions, then walk the span in 200 steps producing the diagrams and peaks.
The walk starts from the reaction at position 0, which is always a node.
The source also contains a first diagram loop (lines 388-458) whose running
state is discarded and reset before the final loop (lines 460-471) and which
records no samples; that dead loop has no observable effect and is not
modelled. -/
def solveBeam (inp : BeamInput) : SolverResult :=
  let nodes := solveNodes inp
  let dvec := solveLinear (nodes.length * 2) (assembleK inp nodes)
    (assembleF nodes inp.pointLoads inp.distributedLoads)
  let dx := inp.span / 200
  let init0 : WalkState := ⟨0, 0, [], [], [], 0, 0, 0, 0⟩
  let init :=
    match reactionLookup inp nodes dvec 0 with
    | some r => { init0 with V := r.1, M := -r.2 }
    | none => init0
  let final := (List.range 201).foldl (walkStep inp nodes dvec dx) init
  { chartDataMoment := final.moments
    chartDataShear := final.shears
    chartDataDeflection := final.defls
    maxMomentPos := final.maxMomentPos
    maxMomentNeg := final.maxMomentNeg
    maxShear := final.maxShear
    maxDeflection := final.maxDeflection }

/-! ## Beam design engine (calculateBeam, pdfGenerator.ts lines 334-670) -/

/-- Effective depth d = height - cover - stirrup/10 - barDia/20 in cm
(calculateReinforcement line 421). -/
def dFace (height cover stirrupDia barDia : ℝ) : ℝ :=
  height - cover - stirrupDia / 10 - barDia / 20

/-- Nondimensional moment ratio Kmd = Md / (bw * d squared * fcd), with Md
converted to kN.cm (calculateReinforcement lines 417 and 426). -/
def kmdOf (width height cover stirrupDia fcd_kN_cm2 MomentD_kNm barDia : ℝ) : ℝ :=
  MomentD_kNm * 100 /
    (width * dFace height cover stirrupDia barDia ^ 2 * fcd_kN_cm2)

/-- The steel area produced by the flexural branch of calculateReinforcement
(lines 433-465): it stays at its initial value 0 when Kmd exceeds the 0.45
limit (section insufficient, no area computed), and otherwise receives the
closed form rectangular stress block solution As = Md / (beta_z * d *
fyd). -/
def flexuralAs (width height cover stirrupDia fcd fyd MomentD barDia : ℝ) : ℝ :=
  let Kmd := kmdOf width height cover stirrupDia fcd MomentD barDia
  if Kmd > 0.45 then 0
  else
    let beta_x := 1.25 * (1 - Real.sqrt (1 - 2 * Kmd))
    let beta_z := 1 - 0.4 * beta_x
    MomentD * 100 / (beta_z * dFace height cover stirrupDia barDia * fyd)

/-- Adds the overflowing bars to the last created layer (packing loop of
calculateReinforcement, line 519).  When no layer exists the JS code writes
to array index -1, which never becomes a visible array element; the list is
returned unchanged in that case. -/
def bumpLast (acc : List ℤ) (r : ℤ) : List ℤ :=
  match acc with
  | [] => []
  | _ => acc.dropLast ++ [acc.getLast! + r]

/-- The bar packing while loop of calculateReinforcement (lines 511-527),
with the remaining layer slots as the decreasing counter: returns the per
layer bar counts and whether the bars fitted (false marks the face as
detailing infeasible; the overflow is still placed in the last layer so the
reported totals stay consistent). -/
def packLoop (maxPerLayer : ℤ) : ℕ → ℤ → List ℤ → List ℤ × Bool
  | slots, remaining, acc =>
    if remaining ≤ 0 then (acc, true)
    else
      match slots with
      | 0 => (bumpLast acc remaining, false)
      | s + 1 =>
        let c := min remaining maxPerLayer
        packLoop maxPerLayer s (remaining - c) (acc ++ [c])

/-- Result record of calculateReinforcement (lines 529-535), extended with
the list of messages the call pushes into the enclosing message list. -/
structure ReinfResult where
  as_req : ℝ
  as_provided : ℝ
  count : ℤ
  layers : List ℤ
  valid : Bool
  msgs : List Msg

/-- calculateReinforcement (pdfGenerator.ts lines 413-536), the per face
flexural design helper defined inside calculateBeam.  The first eight
parameters are the values the source closure captures from the enclosing
call (section, cover, stirrup, concrete grade, design strengths in kN per
cm2, allowed layers). -/
def calculateReinforcement (width height cover stirrupDia fck fcd fyd : ℝ)
    (layers : ℕ) (MomentD barDia : ℝ) (face : Face) : ReinfResult :=
  let Kmd := kmdOf width height cover stirrupDia fcd MomentD barDia
  let as0 := flexuralAs width height cover stirrupDia fcd fyd MomentD barDia
  let valid0 : Bool := if Kmd > 0.45 then false else true
  let kmdMsgs : List Msg :=
    if Kmd > 0.45 then [Msg.sectionInsufficient face] else []
  let As_min := getRhoMin fck / 100 * width * height
  let as1 := if MomentD < 0.5 then 0 else as0
  let as2 := if as1 < As_min then As_min else as1
  let barArea := Real.pi * (barDia / 20) ^ 2
  let numberOfBars : ℤ :=
    if MomentD < 0.5 then
      if As_min > 2 * barArea then
        let n := ⌈As_min / barArea⌉
        if n < 2 then 2 else n
      else 2
    else
      let n := ⌈as2 / barArea⌉
      if n < 2 then 2 else n
  let availableWidth := width - 2 * cover - 2 * stirrupDia / 10
  let minSpace := max 2 (max (barDia / 10) (1.2 * 1.9))
  let maxBarsPerLayer : ℤ := ⌊(availableWidth + minSpace) / (barDia / 10 + minSpace)⌋
  let pack := packLoop maxBarsPerLayer layers numberOfBars []
  { as_req := as2
    as_provided := (numberOfBars : ℝ) * barArea
    count := numberOfBars
    layers := pack.1
    valid := valid0 && pack.2
    msgs := kmdMsgs ++ (if pack.2 then [] else [Msg.layersOverflow face]) }

/-- True when the member is a cantilever: exactly one support and it is
fixed (calculateBeam line 338). -/
def isCantilever (inp : BeamInput) : Bool :=
  inp.supports.length == 1 &&
    (match inp.supports with
     | s :: _ => s.type == SupportType.fixed
     | [] => false)

/-- Stability check (calculateBeam line 339): at least two supports, or a
cantilever. -/
def isStable (inp : BeamInput) : Bool :=
  decide (2 ≤ inp.supports.length) || isCantilever inp

/-- Design concrete strength in kN per cm2 (calculateBeam lines 370-371). -/
def beamFcdKNcm2 (inp : BeamInput) : ℝ := inp.fck / GAMMA_C / 10

/-- Design steel strength in kN per cm2 (calculateBeam lines 372-373). -/
def beamFydKNcm2 (inp : BeamInput) : ℝ := inp.fyk / GAMMA_S / 10

/-- Top bar diameter defaulting (calculateBeam line 544): the JS expression
falls back to the bottom bar diameter when the stored value is zero (falsy). -/
def beamTopBarDia (inp : BeamInput) : ℝ :=
  if inp.topBarDiameter = 0 then inp.longitudinalBarDiameter
  else inp.topBarDiameter

/-- Design positive moment M_d_pos = max(0, maxMomentPos) * GAMMA_F
(calculateBeam line 539). -/
def beamMdPos (sr : SolverResult) : ℝ := max 0 sr.maxMomentPos * GAMMA_F

/-- Design negative moment magnitude abs(min(0, maxMomentNeg)) * GAMMA_F
(calculateBeam line 543). -/
def beamMdNeg (sr : SolverResult) : ℝ := |min 0 sr.maxMomentNeg| * GAMMA_F

/-- The bottom face design call of calculateBeam (line 540). -/
def beamBottomRes (inp : BeamInput) (sr : SolverResult) : ReinfResult :=
  calculateReinforcement inp.width inp.height inp.concreteCover
    inp.stirrupDiameter inp.fck (beamFcdKNcm2 inp) (beamFydKNcm2 inp)
    inp.layers (beamMdPos sr) inp.longitudinalBarDiameter Face.bottom

/-- The top face design call of calculateBeam (line 545). -/
def beamTopRes (inp : BeamInput) (sr : SolverResult) : ReinfResult :=
  calculateReinforcement inp.width inp.height inp.concreteCover
    inp.stirrupDiameter inp.fck (beamFcdKNcm2 inp) (beamFydKNcm2 inp)
    inp.layers (beamMdNeg sr) (beamTopBarDia inp) Face.top

/-- Minimum transverse reinforcement ratio rho_sw_min = 0.2 * fctm / fywk
with fctm = 0.3 * fck to the power two thirds and fywk = 500 (calculateBeam
lines 556-558). -/
def beamRhoSwMin (inp : BeamInput) : ℝ :=
  0.2 * (0.3 * inp.fck ^ ((2 : ℝ) / 3) / 500)

/-- Provided transverse reinforcement ratio, two stirrup legs over spacing
times width (calculateBeam lines 561-566). -/
def beamRhoSwProv (inp : BeamInput) : ℝ :=
  2 * (Real.pi * (inp.stirrupDiameter / 20) ^ 2) /
    (inp.stirrupSpacing * inp.width)

/-- Deflection limit divisor: 125 for a cantilever, 250 otherwise
(calculateBeam line 404). -/
def beamLimitDivisor (inp : BeamInput) : ℝ :=
  if isCantilever inp then 125 else 250

/-- Allowable deflection span * 100 / divisor in cm (calculateBeam lines
403-405). -/
def beamAllowableDeflection (inp : BeamInput) : ℝ :=
  inp.span * 100 / beamLimitDivisor inp

/-- One alternative reinforcement candidate for a commercial bar diameter
(calculateBeam lines 596-638): none when the diameter is below 6.3 mm or the
candidate needs more than 3 layers or more than 16 bars. -/
def beamAlternative (inp : BeamInput) (M_critical dia : ℝ) :
    Option ReinforcementOption :=
  if dia < 6.3 then none
  else
    let availableWidth := inp.width - 2 * inp.concreteCover - 2 * inp.stirrupDiameter / 10
    let minSpace := max 2 (max (dia / 10) (1.2 * 1.9))
    let maxBarsPerLayer : ℤ := ⌊(availableWidth + minSpace) / (dia / 10 + minSpace)⌋
    let d_est := inp.height / 100 - 0.05
    let z_est := 0.9 * d_est
    let fyd := inp.fyk * 1000 / GAMMA_S
    let As_est := M_critical / (z_est * fyd) * 10000
    let As_min_alt := getRhoMin inp.fck / 100 * inp.width * inp.height
    let As_target := max As_est As_min_alt
    let areaOne := Real.pi * (dia / 20) ^ 2
    let count0 : ℤ := ⌈As_target / areaOne⌉
    let count := if count0 < 2 then 2 else count0
    let totalArea := (count : ℝ) * areaOne
    if count ≤ maxBarsPerLayer then
      if count ≤ 16 then some ⟨dia, count, totalArea, 1, true⟩ else none
    else if count ≤ maxBarsPerLayer * 2 then
      if count ≤ 16 then some ⟨dia, count, totalArea, 2, true⟩ else none
    else if count ≤ maxBarsPerLayer * 3 then
      if count ≤ 16 then some ⟨dia, count, totalArea, 3, true⟩ else none
    else none

/-- The main body of calculateBeam after the stability guard (pdfGenerator.ts
lines 355-669), as a function of the input and the solver result it consumes
(design stage: serviceability check, two face designs, shear ratio check,
alternatives, output record). -/
def beamDesign (inp : BeamInput) (sr : SolverResult) : CalculationResult :=
  let bottomResult := beamBottomRes inp sr
  let topResult := beamTopRes inp sr
  let elsMsgs := if |sr.maxDeflection| > beamAllowableDeflection inp
    then [Msg.elsWarning] else []
  -- isValid starts true (line 400), is cleared when a face design is invalid
  -- (line 547) and when the stirrup ratio is below the minimum (lines
  -- 576-579); the serviceability check above pushes a message only.
  let isValid1 := true
  let isValid2 := if !bottomResult.valid || !topResult.valid then false else isValid1
  let shearFails := beamRhoSwProv inp < beamRhoSwMin inp
  let isValid3 := if shearFails then false else isValid2
  let shearMsgs := if shearFails then [Msg.stirrupRatioLow] else []
  let M_critical := max (beamMdPos sr) (beamMdNeg sr)
  { isValid := isValid3
    messages := elsMsgs ++ bottomResult.msgs ++ topResult.msgs ++ shearMsgs
    metrics := [beamMdPos sr, beamMdNeg sr, sr.maxShear * GAMMA_F,
      |sr.maxDeflection|, bottomResult.as_provided, topResult.as_provided]
    chartDataMoment := some sr.chartDataMoment
    chartDataNormal := none
    chartDataBuckling := none
    chartDataShear := some sr.chartDataShear
    chartDataDeflection := some sr.chartDataDeflection
    crossSection := some
      { width := inp.width
        height := inp.height
        cover := inp.concreteCover
        stirrupDiameter := inp.stirrupDiameter
        stirrupSpacing := inp.stirrupSpacing
        stirrupHookAngle := inp.stirrupHookAngle
        bottomBarDiameter := inp.longitudinalBarDiameter
        topBarDiameter := beamTopBarDia inp
        bottomLayers := bottomResult.layers
        topLayers := topResult.layers
        leftLayers := none
        rightLayers := none
        stirrupLegs := 2 }
    alternativeReinforcement := BAR_DIAMETERS.filterMap (beamAlternative inp M_critical) }

/-- Early return record of calculateBeam when the structure is unstable
(lines 341-353): invalid, one instability message, empty metrics, the three
beam diagram lists present but empty, no cross section, no alternatives. -/
def beamInstabilityResult : CalculationResult where
  isValid := false
  messages := [Msg.instability]
  metrics := []
  chartDataMoment := some []
  chartDataNormal := none
  chartDataBuckling := none
  chartDataShear := some []
  chartDataDeflection := some []
  crossSection := none
  alternativeReinforcement := []

/-- calculateBeam (pdfGenerator.ts lines 334-670): stability guard first
(fail fast), then the solver and the design stage. -/
def calculateBeam (inp : BeamInput) : CalculationResult :=
  if isStable inp then beamDesign inp (solveBeam inp)
  else beamInstabilityResult

/-! ## Theorems for the claims -/

/-- The validity flag of the main column branch is the result of the
crushing and maximum reinforcement checks alone (lines 814-825). -/
theorem colMainResult_isValid (inp : ColumnInput) :
    (colMainResult inp).isValid =
      (if colAsFinal inp > colAsMax inp then false
       else if colNu inp > 1.0 then false else true) := rfl

/-- The message list of the main column branch in push order: crushing, over
reinforced, stirrup diameter warning, stirrup spacing warning. -/
theorem colMainResult_messages (inp : ColumnInput) :
    (colMainResult inp).messages =
      (if colNu inp > 1.0 then [Msg.crushing] else []) ++
      (if colAsFinal inp > colAsMax inp then [Msg.overReinforced] else []) ++
      (if inp.stirrupDiameter < colMinStirrupDiaRule inp
        then [Msg.stirrupDiaSmall] else []) ++
      (if inp.stirrupSpacing > colMaxSpacingRule inp
        then [Msg.stirrupSpacingLarge] else []) := rfl

/-- Claim C3: in calculateColumn, for each axis independently, whenever the
slenderness ratio of that axis is at most 35 the total design moment of that
axis equals the minimum first order moment M1_min = Nd * e_min exactly, with
no second order magnification term added; magnification is applied only when
the axis slenderness exceeds 35. -/
theorem C3_no_magnification_below_35 (inp : ColumnInput) :
    (columnLambdaX inp ≤ 35 → columnMtotX inp = colNd inp * colEminX inp) ∧
    (columnLambdaY inp ≤ 35 → columnMtotY inp = colNd inp * colEminY inp) := by
  constructor
  · intro h
    rw [columnMtotX, if_neg (not_lt.mpr h)]
    rfl
  · intro h
    rw [columnMtotY, if_neg (not_lt.mpr h)]
    rfl

/-- Concrete short column (2 m high, 40 by 40 cm, both slendernesses equal
17.3) used by the C3 witness. -/
def colInputC3 : ColumnInput where
  height := 2
  axialLoad := 500
  widthX := 40
  widthY := 40
  fck := 25
  steelType := SteelType.CA50
  fyk := 500
  supportCondition := SupportCondition.PINNED_PINNED
  longitudinalBarDiameter := 12.5
  stirrupDiameter := 5
  stirrupSpacing := 15

/-- Witness for C3: on the concrete short column both axis slendernesses are
below 35 and both total moments equal the minimum first order moments. -/
theorem C3_witness :
    columnMtotX colInputC3 = colNd colInputC3 * colEminX colInputC3 ∧
    columnMtotY colInputC3 = colNd colInputC3 * colEminY colInputC3 := by
  refine ⟨(C3_no_magnification_below_35 colInputC3).1 ?_,
    (C3_no_magnification_below_35 colInputC3).2 ?_⟩
  · norm_num [columnLambdaX, colLe, colK, colHx, colInputC3]
  · norm_num [columnLambdaY, colLe, colK, colHy, colInputC3]

/-- Concrete column with unit effective length and a 1 m wide section, on
which the slenderness computed by the code (3.46) differs from the claimed
formula with the square root of 12 (3.4641...). -/
def colInputC4cx : ColumnInput where
  height := 1
  axialLoad := 100
  widthX := 100
  widthY := 100
  fck := 25
  steelType := SteelType.CA50
  fyk := 500
  supportCondition := SupportCondition.PINNED_PINNED
  longitudinalBarDiameter := 12.5
  stirrupDiameter := 5
  stirrupSpacing := 15

/-- Counterexample for C4 as stated: the code computes the slenderness with
the literal constant 3.46, not with the square root of 12. -/
theorem C4_counterexample :
    columnLambdaX colInputC4cx ≠
      colK colInputC4cx.supportCondition * colInputC4cx.height * Real.sqrt 12 /
        (colInputC4cx.widthX / 100) := by
  have h1 : columnLambdaX colInputC4cx = 3.46 := by
    norm_num [columnLambdaX, colLe, colK, colHx, colInputC4cx]
  have h2 : colK colInputC4cx.supportCondition * colInputC4cx.height *
      Real.sqrt 12 / (colInputC4cx.widthX / 100) = Real.sqrt 12 := by
    norm_num [colK, colInputC4cx]
  rw [h1, h2]
  intro h
  have h3 : (3.46 : ℝ) ^ 2 = 12 := by
    rw [h]
    exact Real.sq_sqrt (by norm_num)
  norm_num at h3

/-- Claim C4 as amended: the slenderness of each side is computed as
(k * height * 3.46) / side, with 3.46 the truncation of the square root of
12 used by the source, and whenever the maximum of the two slendernesses
exceeds 140 the result is invalid with an excessive slenderness message and
empty metrics, regardless of the axial load magnitude. -/
theorem C4_slenderness_reject (inp : ColumnInput)
    (h : max (columnLambdaX inp) (columnLambdaY inp) > 140) :
    columnLambdaX inp =
      colK inp.supportCondition * inp.height * 3.46 / (inp.widthX / 100) ∧
    columnLambdaY inp =
      colK inp.supportCondition * inp.height * 3.46 / (inp.widthY / 100) ∧
    (calculateColumn inp).isValid = false ∧
    Msg.slendernessExcessive ∈ (calculateColumn inp).messages ∧
    (calculateColumn inp).metrics = [] := by
  have hcol : calculateColumn inp = colSlenderResult := by
    simp only [calculateColumn]
    rw [if_pos h]
  refine ⟨rfl, rfl, ?_, ?_, ?_⟩ <;> rw [hcol] <;> simp [colSlenderResult]

/-- Concrete very slender column (10 m high, 10 by 20 cm section) used by
the C4 witness; its slenderness about x is 346. -/
def colInputC4w : ColumnInput where
  height := 10
  axialLoad := 100
  widthX := 10
  widthY := 20
  fck := 25
  steelType := SteelType.CA50
  fyk := 500
  supportCondition := SupportCondition.PINNED_PINNED
  longitudinalBarDiameter := 12.5
  stirrupDiameter := 5
  stirrupSpacing := 15

/-- Witness for the amended C4 at the concrete very slender column. -/
theorem C4_witness :
    columnLambdaX colInputC4w =
      colK colInputC4w.supportCondition * colInputC4w.height * 3.46 /
        (colInputC4w.widthX / 100) ∧
    columnLambdaY colInputC4w =
      colK colInputC4w.supportCondition * colInputC4w.height * 3.46 /
        (colInputC4w.widthY / 100) ∧
    (calculateColumn colInputC4w).isValid = false ∧
    Msg.slendernessExcessive ∈ (calculateColumn colInputC4w).messages ∧
    (calculateColumn colInputC4w).metrics = [] := by
  refine C4_slenderness_reject colInputC4w ?_
  norm_num [columnLambdaX, columnLambdaY, colLe, colK, colHx, colHy,
    colInputC4w, max_def]

/-- Claim C7: calculateBeam and calculateColumn are deterministic pure
functions of their input records: two calls with identical inputs yield
identical output records in every embedded field. -/
theorem C7_determinism (b1 b2 : BeamInput) (c1 c2 : ColumnInput)
    (hb : b1 = b2) (hc : c1 = c2) :
    calculateBeam b1 = calculateBeam b2 ∧
    calculateColumn c1 = calculateColumn c2 := by
  subst hb
  subst hc
  exact ⟨rfl, rfl⟩

/-- Concrete beam input used by the C7 witness. -/
def beamInputC7 : BeamInput where
  span := 5
  supports := [⟨0, SupportType.pin⟩, ⟨5, SupportType.roller⟩]
  pointLoads := [⟨2.5, 10⟩]
  distributedLoads := [⟨0, 5, 3, 3⟩]
  width := 14
  height := 40
  fck := 25
  steelType := SteelType.CA50
  fyk := 500
  concreteCover := 2.5
  longitudinalBarDiameter := 12.5
  topBarDiameter := 10
  stirrupDiameter := 5
  stirrupSpacing := 15
  stirrupHookAngle := 90
  layers := 2

/-- Concrete column input used by the C7 witness. -/
def colInputC7 : ColumnInput where
  height := 3
  axialLoad := 800
  widthX := 20
  widthY := 40
  fck := 30
  steelType := SteelType.CA50
  fyk := 500
  supportCondition := SupportCondition.FIXED_FIXED
  longitudinalBarDiameter := 16
  stirrupDiameter := 6.3
  stirrupSpacing := 12

/-- Witness for C7 at a concrete beam and a concrete column. -/
theorem C7_witness :
    calculateBeam beamInputC7 = calculateBeam beamInputC7 ∧
    calculateColumn colInputC7 = calculateColumn colInputC7 :=
  C7_determinism beamInputC7 beamInputC7 colInputC7 colInputC7 rfl rfl

/-- Claim C2: for every input whose supports list has fewer than 2 entries
and is not exactly one fixed support, calculateBeam returns the instability
record: invalid, an instability message, and the three diagram sample lists
present but empty, with no solve or design performed (the result is exactly
the early return record); for every stable input this branch is not taken
and the result is the design stage applied to the solver output. -/
theorem C2_stability_guard (inp : BeamInput) :
    (isStable inp = false →
      (calculateBeam inp).isValid = false ∧
      Msg.instability ∈ (calculateBeam inp).messages ∧
      (calculateBeam inp).chartDataShear = some [] ∧
      (calculateBeam inp).chartDataMoment = some [] ∧
      (calculateBeam inp).chartDataDeflection = some [] ∧
      calculateBeam inp = beamInstabilityResult) ∧
    (isStable inp = true →
      calculateBeam inp = beamDesign inp (solveBeam inp)) := by
  constructor
  · intro h
    have hres : calculateBeam inp = beamInstabilityResult := by
      simp [calculateBeam, h]
    rw [hres]
    simp [beamInstabilityResult]
  · intro h
    simp [calculateBeam, h]

/-- Concrete unstable beam input (a single pinned support) used by the C2
witness. -/
def beamInputC2u : BeamInput where
  span := 4
  supports := [⟨0, SupportType.pin⟩]
  pointLoads := []
  distributedLoads := []
  width := 14
  height := 40
  fck := 25
  steelType := SteelType.CA50
  fyk := 500
  concreteCover := 2.5
  longitudinalBarDiameter := 12.5
  topBarDiameter := 10
  stirrupDiameter := 5
  stirrupSpacing := 15
  stirrupHookAngle := 90
  layers := 2

/-- Concrete stable beam input (two supports) used by the C2 witness. -/
def beamInputC2s : BeamInput where
  span := 4
  supports := [⟨0, SupportType.pin⟩, ⟨4, SupportType.roller⟩]
  pointLoads := []
  distributedLoads := []
  width := 14
  height := 40
  fck := 25
  steelType := SteelType.CA50
  fyk := 500
  concreteCover := 2.5
  longitudinalBarDiameter := 12.5
  topBarDiameter := 10
  stirrupDiameter := 5
  stirrupSpacing := 15
  stirrupHookAngle := 90
  layers := 2

/-- Witness for C2: the single pinned support input takes the instability
branch, the two support input does not. -/
theorem C2_witness :
    calculateBeam beamInputC2u = beamInstabilityResult ∧
    calculateBeam beamInputC2s = beamDesign beamInputC2s (solveBeam beamInputC2s) := by
  constructor
  · exact ((C2_stability_guard beamInputC2u).1 (by rfl)).2.2.2.2.2
  · exact (C2_stability_guard beamInputC2s).2 (by rfl)

/-- Claim C1: in the per face flexural design, when Kmd is strictly greater
than 0.45 the face is marked insufficient (its valid flag is false, which
makes the overall isValid of the design stage false), a section insufficient
message is emitted, and the flexural branch computes no steel area (it
contributes zero); when Kmd is at most 0.45, including exactly 0.45, the
closed form reinforcement area is computed. -/
theorem C1_kmd_cutoff (width height cover stirrupDia fck fcd fyd : ℝ)
    (layers : ℕ) (MomentD barDia : ℝ) (face : Face) :
    (kmdOf width height cover stirrupDia fcd MomentD barDia > 0.45 →
      (calculateReinforcement width height cover stirrupDia fck fcd fyd
        layers MomentD barDia face).valid = false ∧
      Msg.sectionInsufficient face ∈
        (calculateReinforcement width height cover stirrupDia fck fcd fyd
          layers MomentD barDia face).msgs ∧
      flexuralAs width height cover stirrupDia fcd fyd MomentD barDia = 0) ∧
    (kmdOf width height cover stirrupDia fcd MomentD barDia ≤ 0.45 →
      flexuralAs width height cover stirrupDia fcd fyd MomentD barDia =
        MomentD * 100 /
          ((1 - 0.4 * (1.25 * (1 - Real.sqrt
            (1 - 2 * kmdOf width height cover stirrupDia fcd MomentD barDia)))) *
            dFace height cover stirrupDia barDia * fyd)) ∧
    (∀ (inp : BeamInput) (sr : SolverResult),
      (beamBottomRes inp sr).valid = false ∨ (beamTopRes inp sr).valid = false →
      (beamDesign inp sr).isValid = false) := by
  refine ⟨?_, ?_, ?_⟩
  · intro h
    refine ⟨?_, ?_, ?_⟩
    · simp [calculateReinforcement, if_pos h]
    · simp [calculateReinforcement, if_pos h]
    · simp [flexuralAs, if_pos h]
  · intro h
    rw [flexuralAs, if_neg (not_lt.mpr h)]
  · intro inp sr h
    rcases h with h | h <;> simp [beamDesign, h]

/-- Witness for C1: a face with Kmd equal to 10 is rejected with the message
and a zero flexural area, and a face with Kmd equal to 0 (at most 0.45)
receives the closed form area. -/
theorem C1_witness :
    ((calculateReinforcement 10 10 0 0 25 1 50 2 100 0 Face.bottom).valid = false ∧
     Msg.sectionInsufficient Face.bottom ∈
       (calculateReinforcement 10 10 0 0 25 1 50 2 100 0 Face.bottom).msgs ∧
     flexuralAs 10 10 0 0 1 50 100 0 = 0) ∧
    flexuralAs 10 10 0 0 1 50 0 10 =
      0 * 100 / ((1 - 0.4 * (1.25 * (1 - Real.sqrt
        (1 - 2 * kmdOf 10 10 0 0 1 0 10)))) * dFace 10 0 0 10 * 50) := by
  constructor
  · exact (C1_kmd_cutoff 10 10 0 0 25 1 50 2 100 0 Face.bottom).1
      (by norm_num [kmdOf, dFace])
  · exact (C1_kmd_cutoff 10 10 0 0 25 1 50 2 0 10 Face.bottom).2.1
      (by norm_num [kmdOf, dFace])

/-- Claim C9: in calculateColumn, past the slenderness gate, the validity
flag equals the conjunction of the crushing check and the maximum
reinforcement check and is untouched by the stirrup checks, while the
stirrup diameter warning appears exactly when the diameter is below
max(5, barDiameter / 4) and the spacing warning exactly when the spacing
exceeds min(20, smaller side, 12 * barDiameter / 10). -/
theorem C9_stirrup_warnings (inp : ColumnInput)
    (h : max (columnLambdaX inp) (columnLambdaY inp) ≤ 140) :
    (∀ sd ss : ℝ,
      (calculateColumn { inp with stirrupDiameter := sd, stirrupSpacing := ss }).isValid
        = (calculateColumn inp).isValid) ∧
    (Msg.stirrupDiaSmall ∈ (calculateColumn inp).messages ↔
      inp.stirrupDiameter < colMinStirrupDiaRule inp) ∧
    (Msg.stirrupSpacingLarge ∈ (calculateColumn inp).messages ↔
      inp.stirrupSpacing > colMaxSpacingRule inp) := by
  have hcol : calculateColumn inp = colMainResult inp := by
    rw [calculateColumn, if_neg (not_lt.mpr h)]
  refine ⟨?_, ?_, ?_⟩
  · intro sd ss
    have hcol2 : calculateColumn { inp with stirrupDiameter := sd, stirrupSpacing := ss }
        = colMainResult { inp with stirrupDiameter := sd, stirrupSpacing := ss } := by
      rw [calculateColumn, if_neg]
      exact not_lt.mpr h
    rw [hcol, hcol2, colMainResult_isValid, colMainResult_isValid]
    rfl
  · rw [hcol, colMainResult_messages]
    split_ifs <;> simp_all
  · rw [hcol, colMainResult_messages]
    split_ifs <;> simp_all

/-- Concrete column (3 m high, 20 by 40 cm, slenderness 51.9) used by the C9
witness; its stirrup diameter 4 mm is below the 5 mm minimum rule. -/
def colInputC9 : ColumnInput where
  height := 3
  axialLoad := 400
  widthX := 20
  widthY := 40
  fck := 25
  steelType := SteelType.CA50
  fyk := 500
  supportCondition := SupportCondition.PINNED_PINNED
  longitudinalBarDiameter := 16
  stirrupDiameter := 4
  stirrupSpacing := 15

/-- Witness for C9 at the concrete column, applying the stirrup invariance
at the concrete replacement values 4 mm and 30 cm. -/
theorem C9_witness :
    (calculateColumn { colInputC9 with stirrupDiameter := 4, stirrupSpacing := 30 }).isValid
      = (calculateColumn colInputC9).isValid ∧
    (Msg.stirrupDiaSmall ∈ (calculateColumn colInputC9).messages ↔
      colInputC9.stirrupDiameter < colMinStirrupDiaRule colInputC9) ∧
    (Msg.stirrupSpacingLarge ∈ (calculateColumn colInputC9).messages ↔
      colInputC9.stirrupSpacing > colMaxSpacingRule colInputC9) := by
  have h := C9_stirrup_warnings colInputC9
    (by norm_num [columnLambdaX, columnLambdaY, colLe, colK, colHx, colHy,
      colInputC9, max_def])
  exact ⟨h.1 4 30, h.2.1, h.2.2⟩

/-- Packing target areas into whole bars: with a positive single bar area,
the ceiling count bumped up to at least 2 bars provides at least the target
area. -/
theorem ceil_bars_cover {x A : ℝ} (hA : 0 < A) :
    x ≤ (((if (⌈x / A⌉ : ℤ) < 2 then 2 else ⌈x / A⌉) : ℤ) : ℝ) * A := by
  have h1 : x / A ≤ ((⌈x / A⌉ : ℤ) : ℝ) := Int.le_ceil _
  have h2 : x ≤ ((⌈x / A⌉ : ℤ) : ℝ) * A := by
    rwa [div_le_iff₀ hA] at h1
  split_ifs with h
  · have h3 : ((⌈x / A⌉ : ℤ) : ℝ) ≤ 2 := by exact_mod_cast h.le
    push_cast
    nlinarith
  · exact h2

/-- Claim C10: for every face designed by calculateReinforcement, the
provided steel area equals the bar count times the area of one bar of the
chosen diameter, the bar count is at least 2, and the provided area is at
least the returned required area, in every branch including the
constructive and minimum reinforcement branches. -/
theorem C10_detailing_invariants
    (width height cover stirrupDia fck fcd fyd : ℝ) (layers : ℕ)
    (MomentD barDia : ℝ) (face : Face) (hbar : 0 < barDia) :
    (calculateReinforcement width height cover stirrupDia fck fcd fyd layers
        MomentD barDia face).as_provided =
      ((calculateReinforcement width height cover stirrupDia fck fcd fyd layers
        MomentD barDia face).count : ℝ) * (Real.pi * (barDia / 20) ^ 2) ∧
    2 ≤ (calculateReinforcement width height cover stirrupDia fck fcd fyd layers
        MomentD barDia face).count ∧
    (calculateReinforcement width height cover stirrupDia fck fcd fyd layers
        MomentD barDia face).as_req ≤
      (calculateReinforcement width height cover stirrupDia fck fcd fyd layers
        MomentD barDia face).as_provided := by
  have hA : (0 : ℝ) < Real.pi * (barDia / 20) ^ 2 := by positivity
  refine ⟨rfl, ?_, ?_⟩
  · simp only [calculateReinforcement]
    split_ifs <;> omega
  · simp only [calculateReinforcement]
    by_cases hMd : MomentD < 0.5
    · simp only [if_pos hMd]
      by_cases hlt : (0 : ℝ) < getRhoMin fck / 100 * width * height
      · simp only [if_pos hlt]
        by_cases hbig : getRhoMin fck / 100 * width * height >
            2 * (Real.pi * (barDia / 20) ^ 2)
        · simp only [if_pos hbig]
          exact ceil_bars_cover hA
        · simp only [if_neg hbig]
          push_cast
          linarith [not_lt.mp hbig]
      · simp only [if_neg hlt]
        have h2 : (0 : ℤ) ≤ (if getRhoMin fck / 100 * width * height >
            2 * (Real.pi * (barDia / 20) ^ 2) then
              (if (⌈getRhoMin fck / 100 * width * height /
                  (Real.pi * (barDia / 20) ^ 2)⌉ : ℤ) < 2 then 2
               else ⌈getRhoMin fck / 100 * width * height /
                  (Real.pi * (barDia / 20) ^ 2)⌉)
            else 2) := by
          split_ifs <;> omega
        have h2r : (0 : ℝ) ≤ ((if getRhoMin fck / 100 * width * height >
            2 * (Real.pi * (barDia / 20) ^ 2) then
              (if (⌈getRhoMin fck / 100 * width * height /
                  (Real.pi * (barDia / 20) ^ 2)⌉ : ℤ) < 2 then 2
               else ⌈getRhoMin fck / 100 * width * height /
                  (Real.pi * (barDia / 20) ^ 2)⌉)
            else 2 : ℤ) : ℝ) := by exact_mod_cast h2
        exact mul_nonneg h2r hA.le
    · simp only [if_neg hMd]
      by_cases hlt : flexuralAs width height cover stirrupDia fcd fyd MomentD barDia <
          getRhoMin fck / 100 * width * height
      · simp only [if_pos hlt]
        exact ceil_bars_cover hA
      · simp only [if_neg hlt]
        exact ceil_bars_cover hA

/-- Witness for C10 at a concrete face design with a 10 mm bar. -/
theorem C10_witness :
    (calculateReinforcement 14 40 2.5 5 25 (25 / 1.4 / 10) (500 / 1.15 / 10) 2
        30 10 Face.bottom).as_provided =
      ((calculateReinforcement 14 40 2.5 5 25 (25 / 1.4 / 10) (500 / 1.15 / 10) 2
        30 10 Face.bottom).count : ℝ) * (Real.pi * ((10 : ℝ) / 20) ^ 2) ∧
    2 ≤ (calculateReinforcement 14 40 2.5 5 25 (25 / 1.4 / 10) (500 / 1.15 / 10) 2
        30 10 Face.bottom).count ∧
    (calculateReinforcement 14 40 2.5 5 25 (25 / 1.4 / 10) (500 / 1.15 / 10) 2
        30 10 Face.bottom).as_req ≤
      (calculateReinforcement 14 40 2.5 5 25 (25 / 1.4 / 10) (500 / 1.15 / 10) 2
        30 10 Face.bottom).as_provided :=
  C10_detailing_invariants 14 40 2.5 5 25 (25 / 1.4 / 10) (500 / 1.15 / 10) 2
    30 10 Face.bottom (by norm_num)

/-- The per face design helper never emits the serviceability warning: its
messages are only the section insufficient and layer overflow ones. -/
theorem elsWarning_not_in_reinf
    (width height cover stirrupDia fck fcd fyd : ℝ) (layers : ℕ)
    (MomentD barDia : ℝ) (face : Face) :
    Msg.elsWarning ∉ (calculateReinforcement width height cover stirrupDia
      fck fcd fyd layers MomentD barDia face).msgs := by
  simp only [calculateReinforcement]
  split_ifs <;> simp

/-- Claim C8: in the beam design stage the allowable deflection is
span/250, or span/125 for a cantilever; the serviceability warning appears
exactly when the peak absolute deflection exceeds that limit, and the
validity flag is never changed by this check (it is invariant under the
peak deflection value). -/
theorem C8_deflection_warning_only (inp : BeamInput) (sr : SolverResult) :
    beamAllowableDeflection inp =
      inp.span * 100 / (if isCantilever inp then 125 else 250) ∧
    (∀ dmax : ℝ,
      (beamDesign inp { sr with maxDeflection := dmax }).isValid =
        (beamDesign inp sr).isValid) ∧
    (Msg.elsWarning ∈ (beamDesign inp sr).messages ↔
      |sr.maxDeflection| > beamAllowableDeflection inp) := by
  refine ⟨rfl, ?_, ?_⟩
  · intro dmax
    rfl
  · have hb : Msg.elsWarning ∉ (beamBottomRes inp sr).msgs :=
      elsWarning_not_in_reinf inp.width inp.height inp.concreteCover
        inp.stirrupDiameter inp.fck (beamFcdKNcm2 inp) (beamFydKNcm2 inp)
        inp.layers (beamMdPos sr) inp.longitudinalBarDiameter Face.bottom
    have ht : Msg.elsWarning ∉ (beamTopRes inp sr).msgs :=
      elsWarning_not_in_reinf inp.width inp.height inp.concreteCover
        inp.stirrupDiameter inp.fck (beamFcdKNcm2 inp) (beamFydKNcm2 inp)
        inp.layers (beamMdNeg sr) (beamTopBarDia inp) Face.top
    by_cases hd : |sr.maxDeflection| > beamAllowableDeflection inp <;>
      by_cases hs : beamRhoSwProv inp < beamRhoSwMin inp <;>
        simp [beamDesign, hd, hs, hb, ht]

/-- Claim C5 evaluation: for the single element from 0 to 1 with one unit
point load exactly at the left end node, the assembly stage fixed end action
vector is (1, 0, 0, 0) while the recovery stage recomputation yields
(0, 0, 0, 0); the two computations are not identical. -/
theorem C5_fea_recomputation_diverges :
    elemAsmFEA [0, 1] 0 [⟨0, 1⟩] [] = (1, 0, 0, 0) ∧
    elemRecFEA [0, 1] 0 [⟨0, 1⟩] [] = (0, 0, 0, 0) ∧
    elemRecFEA [0, 1] 0 [⟨0, 1⟩] [] ≠ elemAsmFEA [0, 1] 0 [⟨0, 1⟩] [] := by
  have htgt : asmPointTarget [0, 1] ⟨0, 1⟩ = some 0 := by
    have hrange : List.range (([0, 1] : List ℝ).length - 1) = [0] := rfl
    rw [asmPointTarget, hrange, List.find?_cons_of_pos]
    rw [decide_eq_true_eq]
    norm_num
  have hasm : elemAsmFEA [0, 1] 0 [⟨0, 1⟩] [] = (1, 0, 0, 0) := by
    simp only [elemAsmFEA, elemAsmPointFEA, elemDistFEA, List.map_cons,
      List.map_nil, List.sum_cons, List.sum_nil, htgt, if_pos]
    norm_num [pointFEA, Prod.ext_iff]
  have hrec : elemRecFEA [0, 1] 0 [⟨0, 1⟩] [] = (0, 0, 0, 0) := by
    simp only [elemRecFEA, elemRecPointFEA, elemDistFEA, List.map_cons,
      List.map_nil, List.sum_cons, List.sum_nil]
    norm_num [Prod.ext_iff]
  refine ⟨hasm, hrec, ?_⟩
  rw [hasm, hrec]
  simp [Prod.ext_iff]

/-- Unit span beam with supports at both ends and one unit point load placed
exactly on the node at position 1, the failing input of claim C6. -/
def beamInputC6 : BeamInput where
  span := 1
  supports := [⟨0, SupportType.pin⟩, ⟨1, SupportType.pin⟩]
  pointLoads := [⟨1, 1⟩]
  distributedLoads := []
  width := 14
  height := 40
  fck := 25
  steelType := SteelType.CA50
  fyk := 500
  concreteCover := 2.5
  longitudinalBarDiameter := 12.5
  topBarDiameter := 10
  stirrupDiameter := 5
  stirrupSpacing := 15
  stirrupHookAngle := 90
  layers := 2

/-- Claim C6 evaluation: the failing input discretizes to the nodes 0 and 1,
and its unit point load, lying exactly on the node at position 1, contributes
-1 to the global load vector F at the vertical degree of freedom of that
node; the load is not skipped by the assembly loop. -/
theorem C6_node_load_enters_F :
    solveNodes beamInputC6 = [0, 1] ∧
    assembleF (solveNodes beamInputC6) beamInputC6.pointLoads
      beamInputC6.distributedLoads 2 = -1 ∧
    assembleF (solveNodes beamInputC6) beamInputC6.pointLoads
      beamInputC6.distributedLoads 2 ≠ 0 := by
  have hnodes : solveNodes beamInputC6 = [0, 1] := by
    norm_num [solveNodes, beamInputC6, List.dedup, List.mergeSort]
  have hpls : beamInputC6.pointLoads = [⟨1, 1⟩] := rfl
  have hdls : beamInputC6.distributedLoads = [] := rfl
  have htgt : asmPointTarget [0, 1] ⟨1, 1⟩ = some 0 := by
    have hrange : List.range (([0, 1] : List ℝ).length - 1) = [0] := rfl
    rw [asmPointTarget, hrange, List.find?_cons_of_pos]
    rw [decide_eq_true_eq]
    norm_num
  have hval : assembleF [0, 1] [⟨1, 1⟩] [] 2 = -1 := by
    have hrange : List.range (([0, 1] : List ℝ).length - 1) = [0] := rfl
    rw [assembleF, hrange]
    simp only [List.map_cons, List.map_nil, List.sum_cons, List.sum_nil,
      elemAsmFEA, elemAsmPointFEA, elemDistFEA, htgt, if_pos]
    norm_num [feaAtDof, pointFEA]
  rw [hnodes, hpls, hdls, hval]
  norm_num

/-- Claim C5 as amended: on an element, the recovery stage fixed end action
recomputation equals the assembly stage computation for every distributed
load and for every point load lying strictly inside the element (both a and
b beyond the 1e-5 tolerance); the two computations differ only for point
loads on an element end node, which assembly applies and recovery skips. -/
theorem C5_interior_loads_agree (x1 x2 : ℝ) (pls : List PointLoad)
    (dls : List DistributedLoad)
    (hstrict : ∀ p ∈ pls, x1 ≤ p.position ∧ p.position ≤ x2 ∧
      min (p.position - x1) (x2 - p.position) > 1e-5) :
    elemRecFEA [x1, x2] 0 pls dls = elemAsmFEA [x1, x2] 0 pls dls := by
  rw [elemRecFEA, elemAsmFEA]
  congr 1
  rw [elemRecPointFEA, elemAsmPointFEA]
  congr 1
  apply List.map_congr_left
  intro p hp
  obtain ⟨h1, h2, h3⟩ := hstrict p hp
  have ha : p.position - x1 > 1e-5 := lt_of_lt_of_le h3 (min_le_left _ _)
  have hb : x2 - p.position > 1e-5 := lt_of_lt_of_le h3 (min_le_right _ _)
  have habs : |x2 - x1| > 1e-5 := by
    rw [abs_of_pos (by linarith)]
    linarith
  have htgt : asmPointTarget [x1, x2] p = some 0 := by
    have hrange : List.range (([x1, x2] : List ℝ).length - 1) = [0] := rfl
    rw [asmPointTarget, hrange, List.find?_cons_of_pos]
    rw [decide_eq_true_eq]
    exact ⟨h1, h2, by simp only [List.getD]; intro hcon; simp at hcon; linarith⟩
  simp only [htgt, if_pos, List.getD]
  rw [if_pos ⟨h1, h2, by simpa using habs, h3⟩]

/-- Witness for the amended C5: a 10 kN load strictly inside the unit
element together with a uniform distributed load gives identical assembly
and recovery fixed end actions. -/
theorem C5_witness :
    elemRecFEA [0, 1] 0 [⟨0.5, 10⟩] [⟨0, 1, 2, 2⟩] =
      elemAsmFEA [0, 1] 0 [⟨0.5, 10⟩] [⟨0, 1, 2, 2⟩] := by
  refine C5_interior_loads_agree 0 1 [⟨0.5, 10⟩] [⟨0, 1, 2, 2⟩] ?_
  intro p hp
  rcases List.mem_singleton.mp hp with rfl
  norm_num

/-- Claim C6 as amended: a point load whose position coincides with an end
node of its receiving element is applied by the assembly loop, contributing
the pure vertical nodal action (magnitude at the coinciding node, zero
moment components); only the recovery stage recomputation skips it. -/
theorem C6_node_load_applied (x1 x2 : ℝ) (p : PointLoad)
    (hc1 : x1 ≤ p.position) (hc2 : p.position ≤ x2)
    (hL : ¬(x2 - x1 < 1e-5))
    (hnode : p.position = x1 ∨ p.position = x2) :
    elemAsmPointFEA [x1, x2] 0 [p] =
      (if p.position = x1 then ((p.magnitude, 0, 0, 0) : ℝ × ℝ × ℝ × ℝ)
       else (0, 0, p.magnitude, 0)) ∧
    elemRecPointFEA [x1, x2] 0 [p] = 0 := by
  have hLpos : (0 : ℝ) < x2 - x1 := lt_of_lt_of_le (by norm_num) (not_lt.mp hL)
  have hne : x2 - x1 ≠ 0 := ne_of_gt hLpos
  have htgt : asmPointTarget [x1, x2] p = some 0 := by
    have hrange : List.range (([x1, x2] : List ℝ).length - 1) = [0] := rfl
    rw [asmPointTarget, hrange, List.find?_cons_of_pos]
    rw [decide_eq_true_eq]
    exact ⟨hc1, hc2, by simpa using hL⟩
  constructor
  · simp only [elemAsmPointFEA, List.map_cons, List.map_nil, List.sum_cons,
      List.sum_nil, htgt, if_pos, List.getD_cons_zero, List.getD_cons_succ,
      add_zero]
    rcases hnode with h | h
    · rw [if_pos h, h, sub_self]
      simp only [pointFEA, Prod.mk.injEq]
      refine ⟨?_, by simp, by simp, by simp⟩
      field_simp
      ring
    · have hne2 : p.position ≠ x1 := by
        rw [h]
        exact ne_of_gt (by linarith)
      rw [if_neg hne2, h, sub_self]
      simp only [pointFEA, Prod.mk.injEq]
      refine ⟨by simp, by simp, ?_, by simp⟩
      field_simp
      ring
  · simp only [elemRecPointFEA, List.map_cons, List.map_nil, List.sum_cons,
      List.sum_nil, List.getD_cons_zero, List.getD_cons_succ]
    rw [if_neg]
    · simp
    · rintro ⟨-, -, -, hmin⟩
      rcases hnode with h | h
      · have : min (p.position - x1) (x2 - p.position) ≤ 0 := by
          calc min (p.position - x1) (x2 - p.position) ≤ p.position - x1 :=
                min_le_left _ _
            _ = 0 := by rw [h, sub_self]
        linarith
      · have : min (p.position - x1) (x2 - p.position) ≤ 0 := by
          calc min (p.position - x1) (x2 - p.position) ≤ x2 - p.position :=
                min_le_right _ _
            _ = 0 := by rw [h, sub_self]
        linarith

/-- Witness for the amended C6: the unit load at position 1 on the element
from 0 to 1 contributes the pure vertical action (0, 0, 1, 0) during
assembly and nothing during recovery. -/
theorem C6_witness :
    elemAsmPointFEA [0, 1] 0 [⟨1, 1⟩] = ((0 : ℝ), (0 : ℝ), (1 : ℝ), (0 : ℝ)) ∧
    elemRecPointFEA [0, 1] 0 [⟨1, 1⟩] = 0 := by
  have h := C6_node_load_applied 0 1 ⟨1, 1⟩ (by norm_num) (by norm_num)
    (by norm_num) (Or.inr rfl)
  refine ⟨?_, h.2⟩
  rw [h.1, if_neg (by norm_num)]

end CalcViga
